import Mathlib

/-!
Verification development for the osdctl `cluster context` core and the
docgen change detector.

The definitions below shallowly embed the Go code of the repository:
pure functions become Lean functions, maps become association lists or
lookup functions, printed output becomes a list of output lines, and
fallible operations return `Except`.  Where the implementation of the
`cluster context` command is not part of the available sources (only its
test file is), the corresponding definition is modelled from the
specification, as indicated in its doc comment.
-/

/-! ## String helpers (models of Go `strings.Contains` / `strings.HasPrefix`) -/

/-- `leadsWith p s` is true when the character list `p` is an initial
segment of the character list `s` (model of a prefix test on Go strings). -/
def leadsWith : List Char → List Char → Bool
  | [], _ => true
  | _ :: _, [] => false
  | p :: ps, s :: ss => p == s && leadsWith ps ss

/-- `occursIn pat s` is true when `pat` occurs contiguously inside `s`
(model of a substring test on Go strings). -/
def occursIn (pat : List Char) : List Char → Bool
  | [] => leadsWith pat []
  | s :: ss => leadsWith pat (s :: ss) || occursIn pat ss

/-- Model of Go `strings.Contains s sub`: case-sensitive substring test. -/
def goContains (s sub : String) : Bool :=
  occursIn sub.data s.data

/-- Model of Go `strings.HasPrefix s pre`: case-sensitive starts-with test. -/
def goStartsWith (s pre : String) : Bool :=
  leadsWith pre.data s.data

/-! ## Audit event classifier -/

/-- Modelled from the spec: the fixed set of read-only / descriptive API
operation-name fragments considered uninteresting for incident response
(the implementation of the classifier is not under the available sources;
the fragments are pinned by the classifier's test table). -/
def skippableList : List String :=
  ["Get", "List", "Describe", "AssumeRole", "Encrypt", "Decrypt",
   "LookupEvents", "GenerateDataKey"]

/-- Modelled from the spec: `skippableEvent eventName` is true when the
event name contains any fragment of `skippableList` (substring match,
case-sensitive); such events are noise and are excluded from reports. -/
def skippableEvent (eventName : String) : Bool :=
  skippableList.any (fun w => goContains eventName w)

/-- A CloudTrail audit event as consumed by the classifier: id, operation
name and actor are optional strings (Go `*string` fields). -/
structure CloudTrailEvent where
  eventId : Option String
  eventName : Option String
  username : Option String
  deriving DecidableEq, Repr

/-- The fixed automated-account prefix whose actors are redacted. -/
def automatedAccountFragment : String := "RH-SRE-"

/-- Modelled from the spec: the classification and redaction core of
`GetCloudTrailLogsForCluster` (the implementation is not under the
available sources).  Noise events are dropped; retained events whose
actor starts with the automated-account prefix have the actor cleared
(set to absent) while the event itself is kept; input order is preserved. -/
def filterCloudTrailEvents (events : List CloudTrailEvent) : List CloudTrailEvent :=
  events.filterMap fun e =>
    if skippableEvent (e.eventName.getD "") then
      none
    else if goStartsWith (e.username.getD "") automatedAccountFragment then
      some { e with username := none }
    else
      some e

/-! ## Claim C1 -/

/-- **C1.** For every audit event name containing one of the fixed noise
fragments (substring match, case-sensitive) `skippableEvent` returns true
(the event is excluded); for every name containing no fragment it returns
false (the event is retained).  In particular "GetUser", "ListBuckets",
"DescribeInstances" and "EncryptData" are excluded, while "UpdateUser",
"DeleteInstance" and "CreateBucket" are retained. -/
theorem skippableEvent_spec :
    (∀ name : String,
      skippableEvent name = true ↔ ∃ w ∈ skippableList, goContains name w = true)
    ∧ skippableEvent "GetUser" = true
    ∧ skippableEvent "ListBuckets" = true
    ∧ skippableEvent "DescribeInstances" = true
    ∧ skippableEvent "EncryptData" = true
    ∧ skippableEvent "UpdateUser" = false
    ∧ skippableEvent "DeleteInstance" = false
    ∧ skippableEvent "CreateBucket" = false := by
  refine ⟨fun name => ?_, by decide, by decide, by decide, by decide,
    by decide, by decide, by decide⟩
  simp [skippableEvent, List.any_eq_true]

/-- Closed instance of `skippableEvent_spec`: the forward direction of the
general part at the concrete name "GetUser" and fragment "Get". -/
theorem skippableEvent_spec_witness :
    skippableEvent "GetUser" = true :=
  (skippableEvent_spec.1 "GetUser").2 ⟨"Get", by decide, by decide⟩

/-! ## Claim C4 -/

/-- **C4.** Every event retained by the classification core of
`GetCloudTrailLogsForCluster` whose actor (username) is present does not
start with the fixed automated-account prefix "RH-SRE-": actors matching
the prefix are cleared while the event is kept, so no event in the
filtered output exposes that prefix. -/
theorem filterCloudTrailEvents_no_automated_actor
    (events : List CloudTrailEvent) (e : CloudTrailEvent) (u : String)
    (hmem : e ∈ filterCloudTrailEvents events)
    (husr : e.username = some u) :
    goStartsWith u automatedAccountFragment = false := by
  rcases List.mem_filterMap.mp hmem with ⟨a, -, hfa⟩
  by_cases hskip : skippableEvent (a.eventName.getD "") = true
  · rw [if_pos hskip] at hfa
    exact Option.noConfusion hfa
  · rw [if_neg hskip] at hfa
    by_cases hred : goStartsWith (a.username.getD "") automatedAccountFragment = true
    · rw [if_pos hred] at hfa
      have he := Option.some.inj hfa
      rw [← he] at husr
      simp at husr
    · rw [if_neg hred] at hfa
      have he := Option.some.inj hfa
      rw [← he] at husr
      rw [husr] at hred
      simpa using hred

/-- Closed instance of `filterCloudTrailEvents_no_automated_actor` at a
concrete retained event carrying the actor "test-user". -/
theorem filterCloudTrailEvents_no_automated_actor_witness :
    goStartsWith "test-user" automatedAccountFragment = false :=
  filterCloudTrailEvents_no_automated_actor
    [⟨some "12345", some "CreateInstance", some "test-user"⟩]
    ⟨some "12345", some "CreateInstance", some "test-user"⟩
    "test-user" (by decide) (by decide)

/-! ## Diagnostic link builder -/

/-- Cluster identity as resolved from the inventory service: id, external
id, infra id, name, version and the hosted-control-plane (Hypershift)
topology flag. -/
structure ClusterInfo where
  id : String
  externalID : String
  infraID : String
  name : String
  version : String
  hypershiftEnabled : Bool
  deriving DecidableEq, Repr

/-- Modelled from the spec: the hosted-control-plane Splunk audit-log URL
template, parameterized by audit index name, human-facing environment
label, cluster id and cluster name (the concrete format string of the
implementation is not under the available sources). -/
def HCPSplunkURL (index envLabel clusterID clusterName : String) : String :=
  "https://osdsecuritylogs.splunkcloud.com/en-US/app/search/search?q=search index="
    ++ index ++ " environment=" ++ envLabel
    ++ " cluster_id=" ++ clusterID ++ " cluster_name=" ++ clusterName

/-- Modelled from the spec: the standalone (classic) Splunk audit-log URL
template, parameterized by audit index name and infra id only (the
concrete format string of the implementation is not under the available
sources). -/
def ClassicSplunkURL (index infraID : String) : String :=
  "https://osdsecuritylogs.splunkcloud.com/en-US/app/search/search?q=search index="
    ++ index ++ " infra_id=" ++ infraID

/-- Modelled from the spec: `buildSplunkURL` branches first on cluster
topology, then on the deployment environment.  Hosted-control-plane
clusters use the HCP template with index
"openshift_managed_hypershift_audit" (suffixed "_stage" for stage) and the
label "staging" for the internal tag "stage", populated with cluster id
and name; standalone clusters use the classic template with index
"openshift_managed_audit" (suffixed "_stage" for stage), populated with
the infra id only.  Any other environment yields the empty string. -/
def buildSplunkURL (cluster : ClusterInfo) (infraID : String) (ocmEnv : String) : String :=
  if cluster.hypershiftEnabled then
    if ocmEnv = "production" then
      HCPSplunkURL "openshift_managed_hypershift_audit" "production" cluster.id cluster.name
    else if ocmEnv = "stage" then
      HCPSplunkURL "openshift_managed_hypershift_audit_stage" "staging" cluster.id cluster.name
    else ""
  else
    if ocmEnv = "production" then
      ClassicSplunkURL "openshift_managed_audit" infraID
    else if ocmEnv = "stage" then
      ClassicSplunkURL "openshift_managed_audit_stage" infraID
    else ""

/-! ## Claim C2 -/

/-- **C2.** For a hosted-control-plane cluster, `buildSplunkURL` with
environment "production" returns the hosted template instantiated with
index "openshift_managed_hypershift_audit", label "production", the
cluster id and the cluster name; with environment "stage" it returns the
hosted template with index "openshift_managed_hypershift_audit_stage" and
label "staging" (the label differs from the internal tag), again with
cluster id and cluster name. -/
theorem buildSplunkURL_hypershift
    (cluster : ClusterInfo) (infraID : String)
    (hhcp : cluster.hypershiftEnabled = true) :
    buildSplunkURL cluster infraID "production"
        = HCPSplunkURL "openshift_managed_hypershift_audit" "production"
            cluster.id cluster.name
    ∧ buildSplunkURL cluster infraID "stage"
        = HCPSplunkURL "openshift_managed_hypershift_audit_stage" "staging"
            cluster.id cluster.name := by
  constructor <;> simp [buildSplunkURL, hhcp]

/-- Closed instance of `buildSplunkURL_hypershift` at the mock cluster of
the test table (id "mock-cluster-id", name "mock-cluster"). -/
theorem buildSplunkURL_hypershift_witness :
    buildSplunkURL ⟨"mock-cluster-id", "", "", "mock-cluster", "", true⟩ "" "production"
        = HCPSplunkURL "openshift_managed_hypershift_audit" "production"
            "mock-cluster-id" "mock-cluster"
    ∧ buildSplunkURL ⟨"mock-cluster-id", "", "", "mock-cluster", "", true⟩ "" "stage"
        = HCPSplunkURL "openshift_managed_hypershift_audit_stage" "staging"
            "mock-cluster-id" "mock-cluster" :=
  buildSplunkURL_hypershift ⟨"mock-cluster-id", "", "", "mock-cluster", "", true⟩ "" rfl

/-! ## Claim C3 -/

/-- **C3.** For a standalone (non-Hypershift) cluster, `buildSplunkURL`
is parameterized by the infra id only — the result does not depend on the
cluster id or name — using index "openshift_managed_audit" for
"production" and "openshift_managed_audit_stage" for "stage"; and for
every environment outside the recognized set, `buildSplunkURL` returns
the empty string for both topologies rather than defaulting. -/
theorem buildSplunkURL_standalone_and_unknown
    (infraID : String) :
    (∀ cluster : ClusterInfo, cluster.hypershiftEnabled = false →
      buildSplunkURL cluster infraID "production"
          = ClassicSplunkURL "openshift_managed_audit" infraID
      ∧ buildSplunkURL cluster infraID "stage"
          = ClassicSplunkURL "openshift_managed_audit_stage" infraID)
    ∧ (∀ cluster cluster' : ClusterInfo, ∀ ocmEnv : String,
        cluster.hypershiftEnabled = false → cluster'.hypershiftEnabled = false →
        buildSplunkURL cluster infraID ocmEnv = buildSplunkURL cluster' infraID ocmEnv)
    ∧ (∀ cluster : ClusterInfo, ∀ ocmEnv : String,
        ocmEnv ≠ "production" → ocmEnv ≠ "stage" →
        buildSplunkURL cluster infraID ocmEnv = "") := by
  refine ⟨fun cluster hsa => ?_, fun cluster cluster' ocmEnv hsa hsa' => ?_,
    fun cluster ocmEnv hp hs => ?_⟩
  · constructor <;> simp [buildSplunkURL, hsa]
  · simp [buildSplunkURL, hsa, hsa']
  · rcases hb : cluster.hypershiftEnabled <;> simp [buildSplunkURL, hb, hp, hs]

/-- Closed instance of `buildSplunkURL_standalone_and_unknown`: standalone
production/stage URLs at infra id "mock-infra-id", independence from the
cluster id/name, and the empty result at environment "unknown" for both
topologies. -/
theorem buildSplunkURL_standalone_and_unknown_witness :
    buildSplunkURL ⟨"", "", "mock-infra-id", "", "", false⟩ "mock-infra-id" "production"
        = ClassicSplunkURL "openshift_managed_audit" "mock-infra-id"
    ∧ buildSplunkURL ⟨"", "", "mock-infra-id", "", "", false⟩ "mock-infra-id" "stage"
        = ClassicSplunkURL "openshift_managed_audit_stage" "mock-infra-id"
    ∧ buildSplunkURL ⟨"a", "", "", "b", "", false⟩ "mock-infra-id" "production"
        = buildSplunkURL ⟨"c", "", "", "d", "", false⟩ "mock-infra-id" "production"
    ∧ buildSplunkURL ⟨"", "", "mock-infra-id", "", "", false⟩ "mock-infra-id" "unknown" = ""
    ∧ buildSplunkURL ⟨"mock-cluster-id", "", "", "mock-cluster", "", true⟩ "mock-infra-id" "unknown" = "" := by
  have h := buildSplunkURL_standalone_and_unknown "mock-infra-id"
  exact ⟨(h.1 _ rfl).1, (h.1 _ rfl).2, h.2.1 _ _ _ rfl rfl,
    h.2.2 _ _ (by decide) (by decide), h.2.2 _ _ (by decide) (by decide)⟩

/-! ## Incident history summarizer -/

/-- Per distinct incident type within a service: name, occurrence count
and most recent occurrence date (string-formatted). -/
structure IncidentOccurrenceTracker where
  incidentName : String
  count : Nat
  lastOccurrence : String
  deriving DecidableEq, Repr

/-- One rendered table row of the historical-alert summary: incident type
name, occurrence count and last-occurrence date. -/
def incidentRow (t : IncidentOccurrenceTracker) : String :=
  t.incidentName ++ "   " ++ toString t.count ++ "   " ++ t.lastOccurrence

/-- The per-service heading line of the historical-alert summary. -/
def serviceHeader (sid : String) : String :=
  "Service: https://redhat.pagerduty.com/service-directory/" ++ sid ++ ":"

/-- The column-header line of each per-service table. -/
def tableHeader : String := "Type   Count   Last Occurrence"

/-- The lines printed for one service id: heading, column header and one
row per tracked incident type. -/
def serviceSection (incidentCounters : String → List IncidentOccurrenceTracker)
    (sid : String) : List String :=
  serviceHeader sid :: tableHeader :: (incidentCounters sid).map incidentRow

/-- Sum of the occurrence counts of a service's tracked incident types. -/
def serviceTotal (trackers : List IncidentOccurrenceTracker) : Nat :=
  trackers.foldl (fun acc t => acc + t.count) 0

/-- Grand total of incident counts across all services of the
caller-supplied id list and all their tracked incident types. -/
def totalIncidents (incidentCounters : String → List IncidentOccurrenceTracker)
    (serviceIDs : List String) : Nat :=
  serviceIDs.foldl (fun acc sid => acc + serviceTotal (incidentCounters sid)) 0

/-- The closing line of the historical-alert summary, reporting the grand
total and the lookback window verbatim. -/
def totalLine (total sinceDays : Nat) : String :=
  "Total number of incidents [ " ++ toString total ++ " ] in [ "
    ++ toString sinceDays ++ " ] days"

/-- Modelled from the spec: `printHistoricalPDAlertSummary` (the
implementation is not under the available sources).  It prints the
section heading, then — iterating services in the caller-supplied order,
not the map's natural order — one section per service id with one row per
tracked incident type, and finally a grand-total line carrying the sum of
all counts and the window size verbatim.  The incident-counter map is
modelled as a lookup function returning the empty list for absent keys,
as a Go map read does. -/
def printHistoricalPDAlertSummary
    (incidentCounters : String → List IncidentOccurrenceTracker)
    (serviceIDs : List String) (sinceDays : Nat) : List String :=
  "PagerDuty Historical Alerts"
    :: (serviceIDs.flatMap (serviceSection incidentCounters)
        ++ [totalLine (totalIncidents incidentCounters serviceIDs) sinceDays])

/-- `foldl` accumulation of counts equals the sum of the mapped counts. -/
theorem serviceTotal_eq_sum (trackers : List IncidentOccurrenceTracker) :
    serviceTotal trackers = (trackers.map (fun t => t.count)).sum := by
  suffices h : ∀ n, trackers.foldl (fun acc t => acc + t.count) n
      = n + (trackers.map (fun t => t.count)).sum by
    simpa [serviceTotal] using h 0
  induction trackers with
  | nil => simp
  | cons t ts ih => intro n; simp [List.foldl_cons, ih, Nat.add_assoc]

/-- `totalIncidents` equals the sum over the id list of the per-service
sums of counts. -/
theorem totalIncidents_eq_sum
    (incidentCounters : String → List IncidentOccurrenceTracker)
    (serviceIDs : List String) :
    totalIncidents incidentCounters serviceIDs
      = (serviceIDs.map
          (fun sid => ((incidentCounters sid).map (fun t => t.count)).sum)).sum := by
  suffices h : ∀ n, serviceIDs.foldl (fun acc sid => acc + serviceTotal (incidentCounters sid)) n
      = n + (serviceIDs.map
          (fun sid => ((incidentCounters sid).map (fun t => t.count)).sum)).sum by
    simpa [totalIncidents] using h 0
  induction serviceIDs with
  | nil => simp
  | cons sid sids ih =>
      intro n
      rw [List.foldl_cons, ih, serviceTotal_eq_sum]
      simp [Nat.add_assoc]

/-! ## Claim C5 -/

/-- **C5.** For every caller-supplied ordered list of service ids,
incident-counter map and window size, the incident history summary emits
one row per tracked incident type (name, count, last-occurrence date) and
one heading per service id of the caller-supplied list, and reports a
grand total equal to the sum of all counts across all services and types
together with the window size verbatim in the closing line. -/
theorem printHistoricalPDAlertSummary_spec
    (incidentCounters : String → List IncidentOccurrenceTracker)
    (serviceIDs : List String) (sinceDays : Nat) :
    (∀ sid ∈ serviceIDs, ∀ t ∈ incidentCounters sid,
        incidentRow t ∈ printHistoricalPDAlertSummary incidentCounters serviceIDs sinceDays)
    ∧ (∀ sid ∈ serviceIDs,
        serviceHeader sid ∈ printHistoricalPDAlertSummary incidentCounters serviceIDs sinceDays)
    ∧ totalLine (totalIncidents incidentCounters serviceIDs) sinceDays
        ∈ printHistoricalPDAlertSummary incidentCounters serviceIDs sinceDays
    ∧ totalIncidents incidentCounters serviceIDs
        = (serviceIDs.map
            (fun sid => ((incidentCounters sid).map (fun t => t.count)).sum)).sum := by
  refine ⟨fun sid hsid t ht => ?_, fun sid hsid => ?_, ?_,
    totalIncidents_eq_sum incidentCounters serviceIDs⟩
  · refine List.mem_cons_of_mem _ (List.mem_append_left _ ?_)
    exact List.mem_flatMap.mpr ⟨sid, hsid,
      List.mem_cons_of_mem _ (List.mem_cons_of_mem _ (List.mem_map_of_mem _ ht))⟩
  · refine List.mem_cons_of_mem _ (List.mem_append_left _ ?_)
    exact List.mem_flatMap.mpr ⟨sid, hsid, List.mem_cons_self _ _⟩
  · exact List.mem_cons_of_mem _ (List.mem_append_right _ (List.mem_singleton.mpr rfl))

/-- Closed instance of `printHistoricalPDAlertSummary_spec` at the test
table's data: service "PD12345" with counts 3 and 2 in a 7-day window
yields both rows and the closing line
"Total number of incidents [ 5 ] in [ 7 ] days". -/
theorem printHistoricalPDAlertSummary_spec_witness :
    incidentRow ⟨"Network Outage", 3, "2024-02-22"⟩
        ∈ printHistoricalPDAlertSummary
            (fun sid => if sid = "PD12345" then
              [⟨"Network Outage", 3, "2024-02-22"⟩, ⟨"Service Downtime", 2, "2024-02-20"⟩]
              else []) ["PD12345"] 7
    ∧ incidentRow ⟨"Service Downtime", 2, "2024-02-20"⟩
        ∈ printHistoricalPDAlertSummary
            (fun sid => if sid = "PD12345" then
              [⟨"Network Outage", 3, "2024-02-22"⟩, ⟨"Service Downtime", 2, "2024-02-20"⟩]
              else []) ["PD12345"] 7
    ∧ "Total number of incidents [ 5 ] in [ 7 ] days"
        ∈ printHistoricalPDAlertSummary
            (fun sid => if sid = "PD12345" then
              [⟨"Network Outage", 3, "2024-02-22"⟩, ⟨"Service Downtime", 2, "2024-02-20"⟩]
              else []) ["PD12345"] 7 := by
  have h := printHistoricalPDAlertSummary_spec
    (fun sid => if sid = "PD12345" then
      [⟨"Network Outage", 3, "2024-02-22"⟩, ⟨"Service Downtime", 2, "2024-02-20"⟩]
      else []) ["PD12345"] 7
  exact ⟨h.1 "PD12345" (by decide) _ (by decide),
    h.1 "PD12345" (by decide) _ (by decide),
    h.2.2.1⟩

/-! ## Snapshot data model -/

/-- An issue-tracker (Jira) issue as carried in the snapshot. -/
structure JiraIssue where
  id : String := ""
  key : String := ""
  summary : String := ""
  deriving DecidableEq, Repr

/-- A service-log entry: description and (string-modelled) timestamp. -/
structure LogEntry where
  description : String := ""
  timestamp : String := ""
  deriving DecidableEq, Repr

/-- A current PagerDuty incident: key, title and urgency. -/
structure PdIncident where
  incidentKey : String := ""
  title : String := ""
  urgency : String := ""
  deriving DecidableEq, Repr

/-- The assembled cluster-context snapshot (Go `contextData`).  Every
collection defaults to empty; maps keyed by service id are modelled as
association lists. -/
structure contextData where
  clusterName : String := ""
  clusterVersion : String := ""
  clusterID : String := ""
  description : String := ""
  ocmEnv : String := ""
  dyntraceEnvURL : String := ""
  dyntraceLogsURL : String := ""
  limitedSupportReasons : List String := []
  serviceLogs : List LogEntry := []
  jiraIssues : List JiraIssue := []
  supportExceptions : List JiraIssue := []
  pdServiceID : List String := []
  pdAlerts : List (String × List PdIncident) := []
  historicalAlerts : List (String × List IncidentOccurrenceTracker) := []
  cloudtrailEvents : List CloudTrailEvent := []
  userBanned : Bool := false
  banCode : String := ""
  banDescription : String := ""
  deriving DecidableEq, Repr

/-! ## Ban-status rendering -/

/-- The recognized export-control compliance ban code. -/
def BanCodeExportControlCompliance : String := "export_control_compliance"

/-- The fixed remediation text (with its link) printed only for the
export-control compliance ban code. -/
def exportControlRemediationLines : List String :=
  ["User banned due to export control compliance.",
   "Please follow the steps detailed here: https://github.com/openshift/ops-sop/blob/master/v4/alerts/UpgradeConfigSyncFailureOver4HrSRE.md#user-banneddisabled-due-to-export-control-compliance ."]

/-- Modelled from the spec: `printUserBannedStatus` (the implementation is
not under the available sources; the exact lines are pinned by its test
table).  Output is the list of printed lines: a section header, then for
a banned user the ban code and description — followed by the fixed
remediation text exactly when the ban code is the recognized
export-control compliance code — and for a non-banned user only the
"User is not banned" line. -/
def printUserBannedStatus (data : contextData) : List String :=
  ["", ">> User Ban Details"]
    ++ (if data.userBanned then
          ["User is banned",
           "Ban code = " ++ data.banCode,
           "Ban description = " ++ data.banDescription]
            ++ (if data.banCode = BanCodeExportControlCompliance then
                  exportControlRemediationLines
                else [])
        else ["User is not banned"])

/-- The head character of an appended string is the head of its first
component when that component is nonempty. -/
theorem string_append_head (a b : String) (ch : Char)
    (ha : a.data.head? = some ch) : (a ++ b).data.head? = some ch := by
  rw [String.data_append]
  cases hd : a.data with
  | nil => rw [hd] at ha; exact absurd ha (by simp)
  | cons x xs =>
      rw [hd] at ha
      simp only [List.head?_cons, Option.some.injEq] at ha
      simp [ha]

/-- A line starting with "Ban code = " or "Ban description = " is never
one of the remediation lines (their head characters differ). -/
theorem ban_field_line_ne_remediation (tail : String) (a : String)
    (hhead : a.data.head? = some 'B') :
    ∀ line ∈ exportControlRemediationLines, a ++ tail ≠ line := by
  intro line hline
  have hB : (a ++ tail).data.head? = some 'B' := string_append_head _ _ _ hhead
  rcases List.mem_cons.mp hline with h | h
  · intro he
    rw [he, h] at hB
    exact absurd hB (by decide)
  · rcases List.mem_cons.mp h with h2 | h2
    · intro he
      rw [he, h2] at hB
      exact absurd hB (by decide)
    · exact absurd h2 (List.not_mem_nil _)

/-! ## Claim C7 -/

/-- **C7.** Ban-status rendering: when the user is banned with the
recognized export-control compliance ban code, the output consists of the
header, the "User is banned" line, the ban code and description lines and
the fixed remediation text with its link; when banned with any other ban
code, the output carries the code and description lines but none of the
remediation lines; when not banned, the output is only the header and the
"User is not banned" line. -/
theorem printUserBannedStatus_spec (data : contextData) :
    (data.userBanned = true → data.banCode = BanCodeExportControlCompliance →
      printUserBannedStatus data
        = ["", ">> User Ban Details", "User is banned",
           "Ban code = " ++ data.banCode,
           "Ban description = " ++ data.banDescription]
          ++ exportControlRemediationLines)
    ∧ (data.userBanned = true → data.banCode ≠ BanCodeExportControlCompliance →
      printUserBannedStatus data
        = ["", ">> User Ban Details", "User is banned",
           "Ban code = " ++ data.banCode,
           "Ban description = " ++ data.banDescription]
      ∧ ∀ line ∈ exportControlRemediationLines, line ∉ printUserBannedStatus data)
    ∧ (data.userBanned = false →
      printUserBannedStatus data = ["", ">> User Ban Details", "User is not banned"]) := by
  refine ⟨fun hb hc => ?_, fun hb hc => ⟨?_, fun line hline hmem => ?_⟩, fun hb => ?_⟩
  · simp [printUserBannedStatus, hb, hc]
  · simp [printUserBannedStatus, hb, hc]
  · rw [printUserBannedStatus] at hmem
    simp only [hb, if_true, hc, if_false, List.append_nil, List.mem_append,
      List.mem_cons, List.not_mem_nil, or_false] at hmem
    rcases hmem with (h | h) | (h | h | h)
    · rw [h] at hline; exact absurd hline (by decide)
    · rw [h] at hline; exact absurd hline (by decide)
    · rw [h] at hline; exact absurd hline (by decide)
    · exact ban_field_line_ne_remediation data.banCode "Ban code = " rfl line hline h.symm
    · exact ban_field_line_ne_remediation data.banDescription "Ban description = " rfl
        line hline h.symm
  · simp [printUserBannedStatus, hb]

/-- Closed instance of `printUserBannedStatus_spec` at the three test
inputs: export-control ban, other ban code "SomeOtherBanCode", and the
non-banned case. -/
theorem printUserBannedStatus_spec_witness :
    printUserBannedStatus
        { userBanned := true, banCode := BanCodeExportControlCompliance,
          banDescription := "Banned for compliance reasons" }
      = ["", ">> User Ban Details", "User is banned",
         "Ban code = " ++ BanCodeExportControlCompliance,
         "Ban description = " ++ "Banned for compliance reasons"]
        ++ exportControlRemediationLines
    ∧ printUserBannedStatus
        { userBanned := true, banCode := "SomeOtherBanCode",
          banDescription := "Some other reason" }
      = ["", ">> User Ban Details", "User is banned",
         "Ban code = " ++ "SomeOtherBanCode",
         "Ban description = " ++ "Some other reason"]
    ∧ printUserBannedStatus { userBanned := false }
      = ["", ">> User Ban Details", "User is not banned"] :=
  ⟨(printUserBannedStatus_spec _).1 rfl rfl,
   ((printUserBannedStatus_spec
      { userBanned := true, banCode := "SomeOtherBanCode",
        banDescription := "Some other reason" }).2.1 rfl (by decide)).1,
   (printUserBannedStatus_spec { userBanned := false }).2.2 rfl⟩

/-! ## Context assembler and run -/

/-- Environment-health (Dynatrace) details for a hosted cluster: tenant
URL and logs-app URL. -/
structure HCPCluster where
  envURL : String := ""
  logsURL : String := ""
  deriving DecidableEq, Repr

/-- The outcomes the external collaborators would return to one
invocation of the assembler, each a fallible result. -/
structure Collaborators where
  getCluster : Except String ClusterInfo
  getJiraIssuesForCluster : Except String (List JiraIssue)
  getJiraSupportExceptionsForOrg : Except String (List JiraIssue)
  fetchClusterDetails : Except String HCPCluster
  getServiceLogsSince : Except String (List LogEntry)

/-- The configuration of one `cluster context` invocation (Go
`ContextOptions`). -/
structure ContextOptions where
  output : String := ""
  clusterID : String := ""
  externalClusterID : String := ""
  organizationID : String := ""
  days : Nat := 30
  pages : Nat := 40
  deriving DecidableEq, Repr

/-- Configuration value selecting the compact tabular encoding. -/
def shortOutputConfigValue : String := "short"

/-- Configuration value selecting the detailed narrative encoding. -/
def longOutputConfigValue : String := "long"

/-- Configuration value selecting the structured JSON encoding. -/
def jsonOutputConfigValue : String := "json"

/-- Modelled from the spec: `ContextOptions.run` (the implementation is
not under the available sources).  The output-encoding configuration is
validated first: an unrecognized value is a hard configuration error,
reported before any collaborator call.  Otherwise identity resolution
runs first and its failure is fatal; every other collaborator failure
degrades its snapshot section to empty.  The result pairs the fatal-error
or snapshot outcome with the ordered list of collaborator calls
performed. -/
def ContextOptions.run (o : ContextOptions) (c : Collaborators) :
    Except String contextData × List String :=
  if o.output = shortOutputConfigValue ∨ o.output = longOutputConfigValue
      ∨ o.output = jsonOutputConfigValue then
    match c.getCluster with
    | .error e => (.error ("failed to get cluster: " ++ e), ["GetCluster"])
    | .ok cluster =>
        let jiraIssues := match c.getJiraIssuesForCluster with
          | .ok issues => issues
          | .error _ => []
        let supportExceptions := match c.getJiraSupportExceptionsForOrg with
          | .ok issues => issues
          | .error _ => []
        let hcp := match c.fetchClusterDetails with
          | .ok details => details
          | .error _ => ({} : HCPCluster)
        let serviceLogs := match c.getServiceLogsSince with
          | .ok logs => logs
          | .error _ => []
        (.ok { clusterName := cluster.name
             , clusterVersion := cluster.version
             , clusterID := cluster.id
             , jiraIssues := jiraIssues
             , supportExceptions := supportExceptions
             , dyntraceEnvURL := hcp.envURL
             , dyntraceLogsURL := hcp.logsURL
             , serviceLogs := serviceLogs },
         ["GetCluster", "GetJiraIssuesForCluster", "GetJiraSupportExceptionsForOrg",
          "FetchClusterDetails", "GetServiceLogsSince"])
  else
    (.error ("unknown Output Format: " ++ o.output), [])

/-! ## Claim C6 -/

/-- **C6.** For every output-encoding configuration value outside the
three recognized encodings, `ContextOptions.run` returns the error
"unknown Output Format: <value>" instead of silently defaulting to an
encoding, and no collaborator call is made before the error is
reported. -/
theorem run_unknown_output (o : ContextOptions) (c : Collaborators)
    (hshort : o.output ≠ shortOutputConfigValue)
    (hlong : o.output ≠ longOutputConfigValue)
    (hjson : o.output ≠ jsonOutputConfigValue) :
    ContextOptions.run o c = (.error ("unknown Output Format: " ++ o.output), []) := by
  rw [ContextOptions.run, if_neg]
  push_neg
  exact ⟨hshort, hlong, hjson⟩

/-- Closed instance of `run_unknown_output` at the test's configuration
value "invalidOutputFormat": the reported message is exactly
"unknown Output Format: invalidOutputFormat" and the call list is empty. -/
theorem run_unknown_output_witness :
    ContextOptions.run { output := "invalidOutputFormat" }
        { getCluster := .ok ⟨"", "", "", "", "", false⟩
        , getJiraIssuesForCluster := .ok []
        , getJiraSupportExceptionsForOrg := .ok []
        , fetchClusterDetails := .ok {}
        , getServiceLogsSince := .ok [] }
      = (.error "unknown Output Format: invalidOutputFormat", []) :=
  run_unknown_output { output := "invalidOutputFormat" }
    { getCluster := .ok ⟨"", "", "", "", "", false⟩
    , getJiraIssuesForCluster := .ok []
    , getJiraSupportExceptionsForOrg := .ok []
    , fetchClusterDetails := .ok {}
    , getServiceLogsSince := .ok [] }
    (by decide) (by decide) (by decide)

/-! ## Claim C8 -/

/-- **C8.** If cluster identity resolution succeeds but the ticketing
(Jira) collaborator fails, `ContextOptions.run` still returns
successfully (no fatal error) with a snapshot whose ticket section is
empty: the non-fatal collaborator failure degrades its section to empty
rather than aborting the whole assembly. -/
theorem run_jira_failure_degrades (o : ContextOptions) (c : Collaborators)
    (cluster : ClusterInfo) (e : String)
    (hout : o.output = shortOutputConfigValue ∨ o.output = longOutputConfigValue
      ∨ o.output = jsonOutputConfigValue)
    (hcluster : c.getCluster = .ok cluster)
    (hjira : c.getJiraIssuesForCluster = .error e) :
    ∃ data : contextData,
      (ContextOptions.run o c).1 = .ok data ∧ data.jiraIssues = [] := by
  rw [ContextOptions.run, if_pos hout, hcluster]
  refine ⟨_, rfl, ?_⟩
  rw [hjira]

/-- Closed instance of `run_jira_failure_degrades`: with output "short",
identity resolution succeeding and the Jira collaborator failing, the run
succeeds and the ticket section of the snapshot is empty. -/
theorem run_jira_failure_degrades_witness :
    ∃ data : contextData,
      (ContextOptions.run { output := "short", clusterID := "test-cluster-id" }
          { getCluster := .ok ⟨"cluster-id", "external-id", "infra-id",
              "test-cluster", "1.0.0", true⟩
          , getJiraIssuesForCluster := .error "jira unavailable"
          , getJiraSupportExceptionsForOrg := .ok []
          , fetchClusterDetails := .ok {}
          , getServiceLogsSince := .ok [] }).1 = .ok data
      ∧ data.jiraIssues = [] :=
  run_jira_failure_degrades { output := "short", clusterID := "test-cluster-id" }
    { getCluster := .ok ⟨"cluster-id", "external-id", "infra-id",
        "test-cluster", "1.0.0", true⟩
    , getJiraIssuesForCluster := .error "jira unavailable"
    , getJiraSupportExceptionsForOrg := .ok []
    , fetchClusterDetails := .ok {}
    , getServiceLogsSince := .ok [] }
    ⟨"cluster-id", "external-id", "infra-id", "test-cluster", "1.0.0", true⟩
    "jira unavailable" (Or.inl rfl) rfl rfl

/-! ## Structured (JSON) encoding -/

/-- A JSON value, the target of the structured machine-readable encoding. -/
inductive Json where
  | null
  | str (s : String)
  | num (n : Int)
  | jbool (b : Bool)
  | arr (elems : List Json)
  | obj (fields : List (String × Json))

/-- Decode every element of a JSON array with `f`, failing if any element
fails. -/
def decodeList {α : Type} (f : Json → Option α) : List Json → Option (List α)
  | [] => some []
  | j :: js =>
      match f j, decodeList f js with
      | some a, some as => some (a :: as)
      | _, _ => none

/-- Element-wise decoding inverts element-wise encoding. -/
theorem decodeList_encode {α : Type} (f : Json → Option α) (g : α → Json)
    (h : ∀ a, f (g a) = some a) (l : List α) :
    decodeList f (l.map g) = some l := by
  induction l with
  | nil => rfl
  | cons a t ih => simp [List.map_cons, decodeList, h, ih]

/-- Encode an optional string (Go `*string`): absent becomes JSON null. -/
def encodeOptStr : Option String → Json
  | none => .null
  | some s => .str s

/-- Decode an optional string field. -/
def decodeOptStr : Json → Option (Option String)
  | .null => some none
  | .str s => some (some s)
  | _ => none

/-- `decodeOptStr` inverts `encodeOptStr`. -/
theorem decodeOptStr_encode (o : Option String) :
    decodeOptStr (encodeOptStr o) = some o := by
  cases o <;> rfl

/-- Decode a plain JSON string. -/
def decodeStr : Json → Option String
  | .str s => some s
  | _ => none

/-- Serialize a Jira issue. -/
def encodeJiraIssue (i : JiraIssue) : Json :=
  .obj [("ID", .str i.id), ("Key", .str i.key), ("Summary", .str i.summary)]

/-- Parse a Jira issue. -/
def decodeJiraIssue : Json → Option JiraIssue
  | .obj [("ID", .str i), ("Key", .str k), ("Summary", .str s)] => some ⟨i, k, s⟩
  | _ => none

/-- `decodeJiraIssue` inverts `encodeJiraIssue`. -/
theorem decodeJiraIssue_encode (i : JiraIssue) :
    decodeJiraIssue (encodeJiraIssue i) = some i := by
  cases i; rfl

/-- Serialize a service-log entry. -/
def encodeLogEntry (e : LogEntry) : Json :=
  .obj [("Description", .str e.description), ("Timestamp", .str e.timestamp)]

/-- Parse a service-log entry. -/
def decodeLogEntry : Json → Option LogEntry
  | .obj [("Description", .str d), ("Timestamp", .str t)] => some ⟨d, t⟩
  | _ => none

/-- `decodeLogEntry` inverts `encodeLogEntry`. -/
theorem decodeLogEntry_encode (e : LogEntry) :
    decodeLogEntry (encodeLogEntry e) = some e := by
  cases e; rfl

/-- Serialize a current PagerDuty incident. -/
def encodePdIncident (i : PdIncident) : Json :=
  .obj [("IncidentKey", .str i.incidentKey), ("Title", .str i.title),
        ("Urgency", .str i.urgency)]

/-- Parse a current PagerDuty incident. -/
def decodePdIncident : Json → Option PdIncident
  | .obj [("IncidentKey", .str k), ("Title", .str t), ("Urgency", .str u)] =>
      some ⟨k, t, u⟩
  | _ => none

/-- `decodePdIncident` inverts `encodePdIncident`. -/
theorem decodePdIncident_encode (i : PdIncident) :
    decodePdIncident (encodePdIncident i) = some i := by
  cases i; rfl

/-- Serialize a historical incident tracker. -/
def encodeTracker (t : IncidentOccurrenceTracker) : Json :=
  .obj [("IncidentName", .str t.incidentName), ("Count", .num t.count),
        ("LastOccurrence", .str t.lastOccurrence)]

/-- Parse a historical incident tracker (counts are non-negative). -/
def decodeTracker : Json → Option IncidentOccurrenceTracker
  | .obj [("IncidentName", .str n), ("Count", .num c), ("LastOccurrence", .str l)] =>
      if 0 ≤ c then some ⟨n, c.toNat, l⟩ else none
  | _ => none

/-- `decodeTracker` inverts `encodeTracker`. -/
theorem decodeTracker_encode (t : IncidentOccurrenceTracker) :
    decodeTracker (encodeTracker t) = some t := by
  cases t
  simp [encodeTracker, decodeTracker]

/-- Serialize a CloudTrail audit event. -/
def encodeEvent (e : CloudTrailEvent) : Json :=
  .obj [("EventId", encodeOptStr e.eventId), ("EventName", encodeOptStr e.eventName),
        ("Username", encodeOptStr e.username)]

/-- Parse a CloudTrail audit event. -/
def decodeEvent : Json → Option CloudTrailEvent
  | .obj [("EventId", j1), ("EventName", j2), ("Username", j3)] =>
      match decodeOptStr j1, decodeOptStr j2, decodeOptStr j3 with
      | some a, some b, some c => some ⟨a, b, c⟩
      | _, _, _ => none
  | _ => none

/-- `decodeEvent` inverts `encodeEvent`. -/
theorem decodeEvent_encode (e : CloudTrailEvent) :
    decodeEvent (encodeEvent e) = some e := by
  cases e
  simp [encodeEvent, decodeEvent, decodeOptStr_encode]

/-- Parse a service-id-keyed JSON object of current-incident arrays. -/
def decodePdAlerts : List (String × Json) → Option (List (String × List PdIncident))
  | [] => some []
  | (k, .arr js) :: rest =>
      match decodeList decodePdIncident js, decodePdAlerts rest with
      | some v, some r => some ((k, v) :: r)
      | _, _ => none
  | _ => none

/-- `decodePdAlerts` inverts the encoding of the current-incident map. -/
theorem decodePdAlerts_encode (l : List (String × List PdIncident)) :
    decodePdAlerts (l.map fun p => (p.1, Json.arr (p.2.map encodePdIncident)))
      = some l := by
  induction l with
  | nil => rfl
  | cons p rest ih =>
      obtain ⟨k, v⟩ := p
      simp [decodePdAlerts, decodeList_encode _ _ decodePdIncident_encode, ih]

/-- Parse a service-id-keyed JSON object of historical-tracker arrays. -/
def decodeHistoricalAlerts :
    List (String × Json) → Option (List (String × List IncidentOccurrenceTracker))
  | [] => some []
  | (k, .arr js) :: rest =>
      match decodeList decodeTracker js, decodeHistoricalAlerts rest with
      | some v, some r => some ((k, v) :: r)
      | _, _ => none
  | _ => none

/-- `decodeHistoricalAlerts` inverts the encoding of the historical map. -/
theorem decodeHistoricalAlerts_encode
    (l : List (String × List IncidentOccurrenceTracker)) :
    decodeHistoricalAlerts (l.map fun p => (p.1, Json.arr (p.2.map encodeTracker)))
      = some l := by
  induction l with
  | nil => rfl
  | cons p rest ih =>
      obtain ⟨k, v⟩ := p
      simp [decodeHistoricalAlerts, decodeList_encode _ _ decodeTracker_encode, ih]

/-- Modelled from the spec: the structured encoding of `printJsonOutput`
(the implementation is not under the available sources): the entire
snapshot serialized as a single JSON object with stable field names, raw
fields only. -/
def encodeContextData (d : contextData) : Json :=
  .obj
    [("ClusterName", .str d.clusterName),
     ("ClusterVersion", .str d.clusterVersion),
     ("ClusterID", .str d.clusterID),
     ("Description", .str d.description),
     ("OCMEnv", .str d.ocmEnv),
     ("DyntraceEnvURL", .str d.dyntraceEnvURL),
     ("DyntraceLogsURL", .str d.dyntraceLogsURL),
     ("LimitedSupportReasons", .arr (d.limitedSupportReasons.map Json.str)),
     ("ServiceLogs", .arr (d.serviceLogs.map encodeLogEntry)),
     ("JiraIssues", .arr (d.jiraIssues.map encodeJiraIssue)),
     ("SupportExceptions", .arr (d.supportExceptions.map encodeJiraIssue)),
     ("PdServiceID", .arr (d.pdServiceID.map Json.str)),
     ("PdAlerts", .obj (d.pdAlerts.map fun p => (p.1, .arr (p.2.map encodePdIncident)))),
     ("HistoricalAlerts",
       .obj (d.historicalAlerts.map fun p => (p.1, .arr (p.2.map encodeTracker)))),
     ("CloudtrailEvents", .arr (d.cloudtrailEvents.map encodeEvent)),
     ("UserBanned", .jbool d.userBanned),
     ("BanCode", .str d.banCode),
     ("BanDescription", .str d.banDescription)]

/-- The single JSON object printed by the structured encoding. -/
def printJsonOutput (d : contextData) : Json :=
  encodeContextData d

/-- Consume a string-valued field with the given key from the front of an
object's field list. -/
def takeStrField (key : String) : List (String × Json) → Option (String × List (String × Json))
  | (k, Json.str s) :: rest => if key = k then some (s, rest) else none
  | _ => none

/-- Consume an array-valued field with the given key from the front of an
object's field list. -/
def takeArrField (key : String) : List (String × Json) → Option (List Json × List (String × Json))
  | (k, Json.arr xs) :: rest => if key = k then some (xs, rest) else none
  | _ => none

/-- Consume an object-valued field with the given key from the front of an
object's field list. -/
def takeObjField (key : String) :
    List (String × Json) → Option (List (String × Json) × List (String × Json))
  | (k, Json.obj fs) :: rest => if key = k then some (fs, rest) else none
  | _ => none

/-- Consume a boolean-valued field with the given key from the front of an
object's field list. -/
def takeBoolField (key : String) : List (String × Json) → Option (Bool × List (String × Json))
  | (k, Json.jbool b) :: rest => if key = k then some (b, rest) else none
  | _ => none

/-- Explicit bind on `Option`, used to keep the snapshot decoder's
elaboration tractable. -/
def bindO {A B : Type} : Option A → (A → Option B) → Option B
  | none, _ => none
  | some a, f => f a

/-- Decode the collection-valued parts of a serialized snapshot and
assemble the full `contextData` from them and the already-extracted
scalar fields. -/
def decodeBody (lsr sl ji se ps : List Json) (pa ha : List (String × Json))
    (ce : List Json) (cn cv cid ds env de dl : String) (ub : Bool)
    (bc bd : String) : Option contextData :=
  bindO (decodeList decodeStr lsr) fun lsrv =>
  bindO (decodeList decodeLogEntry sl) fun slv =>
  bindO (decodeList decodeJiraIssue ji) fun jiv =>
  bindO (decodeList decodeJiraIssue se) fun sev =>
  bindO (decodeList decodeStr ps) fun psv =>
  bindO (decodePdAlerts pa) fun pav =>
  bindO (decodeHistoricalAlerts ha) fun hav =>
  bindO (decodeList decodeEvent ce) fun cev =>
  some { clusterName := cn, clusterVersion := cv, clusterID := cid,
         description := ds, ocmEnv := env, dyntraceEnvURL := de,
         dyntraceLogsURL := dl, limitedSupportReasons := lsrv,
         serviceLogs := slv, jiraIssues := jiv, supportExceptions := sev,
         pdServiceID := psv, pdAlerts := pav, historicalAlerts := hav,
         cloudtrailEvents := cev, userBanned := ub, banCode := bc,
         banDescription := bd }

/-- Parse a serialized snapshot back into a `contextData`: consume the
eighteen fields in their stable order, then decode the collection
fields. -/
def decodeContextData : Json → Option contextData
  | Json.obj fs0 =>
    bindO (takeStrField "ClusterName" fs0) fun r1 =>
    bindO (takeStrField "ClusterVersion" r1.2) fun r2 =>
    bindO (takeStrField "ClusterID" r2.2) fun r3 =>
    bindO (takeStrField "Description" r3.2) fun r4 =>
    bindO (takeStrField "OCMEnv" r4.2) fun r5 =>
    bindO (takeStrField "DyntraceEnvURL" r5.2) fun r6 =>
    bindO (takeStrField "DyntraceLogsURL" r6.2) fun r7 =>
    bindO (takeArrField "LimitedSupportReasons" r7.2) fun r8 =>
    bindO (takeArrField "ServiceLogs" r8.2) fun r9 =>
    bindO (takeArrField "JiraIssues" r9.2) fun r10 =>
    bindO (takeArrField "SupportExceptions" r10.2) fun r11 =>
    bindO (takeArrField "PdServiceID" r11.2) fun r12 =>
    bindO (takeObjField "PdAlerts" r12.2) fun r13 =>
    bindO (takeObjField "HistoricalAlerts" r13.2) fun r14 =>
    bindO (takeArrField "CloudtrailEvents" r14.2) fun r15 =>
    bindO (takeBoolField "UserBanned" r15.2) fun r16 =>
    bindO (takeStrField "BanCode" r16.2) fun r17 =>
    bindO (takeStrField "BanDescription" r17.2) fun r18 =>
    if r18.2.isEmpty then
      decodeBody r8.1 r9.1 r10.1 r11.1 r12.1 r13.1 r14.1 r15.1
        r1.1 r2.1 r3.1 r4.1 r5.1 r6.1 r7.1 r16.1 r17.1 r18.1
    else none
  | _ => none

/-- `decodeBody` inverts the encoding of the collection fields. -/
theorem decodeBody_encode (d : contextData) :
    decodeBody (d.limitedSupportReasons.map Json.str)
      (d.serviceLogs.map encodeLogEntry) (d.jiraIssues.map encodeJiraIssue)
      (d.supportExceptions.map encodeJiraIssue) (d.pdServiceID.map Json.str)
      (d.pdAlerts.map fun p => (p.1, Json.arr (p.2.map encodePdIncident)))
      (d.historicalAlerts.map fun p => (p.1, Json.arr (p.2.map encodeTracker)))
      (d.cloudtrailEvents.map encodeEvent)
      d.clusterName d.clusterVersion d.clusterID d.description d.ocmEnv
      d.dyntraceEnvURL d.dyntraceLogsURL d.userBanned d.banCode
      d.banDescription = some d := by
  rw [decodeBody,
    decodeList_encode decodeStr Json.str (fun s => rfl),
    decodeList_encode _ _ decodeLogEntry_encode,
    decodeList_encode _ _ decodeJiraIssue_encode,
    decodeList_encode _ _ decodeJiraIssue_encode,
    decodeList_encode decodeStr Json.str (fun s => rfl),
    decodePdAlerts_encode, decodeHistoricalAlerts_encode,
    decodeList_encode _ _ decodeEvent_encode]
  rfl

/-! ## Claim C9 -/

/-- **C9.** Structured-encoding round trip: for every snapshot, the output
of `printJsonOutput` is a single JSON object, and parsing it back yields
identical field values for every field of the snapshot — serialization
loses no populated field. -/
theorem printJsonOutput_roundtrip (d : contextData) :
    (∃ fields, printJsonOutput d = Json.obj fields)
    ∧ decodeContextData (printJsonOutput d) = some d :=
  ⟨⟨_, rfl⟩, decodeBody_encode d⟩

/-! ## Documentation change detector (hack/docgen.go) -/

/-- First-match association-list lookup: the model of reading a Go
`map[string]string` (`oldHash, exists := previous.state[path]`).  A file
state is an association list from relative file path to content hash;
Go maps never hold duplicate keys. -/
def lookupState : List (String × String) → String → Option String
  | [], _ => none
  | (k, v) :: rest, key => if k = key then some v else lookupState rest key

/-- Embedding of `detectChanges` (hack/docgen.go): returns true when the
previous state is empty; otherwise returns true exactly when some file of
the current state is absent from the previous state or carries a
different hash there, and false otherwise.  Paths present only in the
previous state are never examined. -/
def detectChanges (previous current : List (String × String)) : Bool :=
  if previous.length = 0 then
    true
  else
    current.any fun pc =>
      match lookupState previous pc.1 with
      | none => true
      | some oldHash => oldHash != pc.2

/-! ## Claim C10 -/

/-- **C10 (counterexample).** The claim "detectChanges returns false
whenever every file path in the current state has an equal hash in the
previous state" fails when both states are empty: every (vacuously no)
current path has an equal hash in the previous state, yet `detectChanges`
returns true because the empty previous state forces regeneration. -/
theorem detectChanges_empty_counterexample :
    (∀ pc ∈ ([] : List (String × String)),
        lookupState ([] : List (String × String)) pc.1 = some pc.2)
    ∧ detectChanges [] [] = true := by
  constructor
  · intro pc hpc
    exact absurd hpc (List.not_mem_nil pc)
  · rfl

/-- **C10 (amended).** `detectChanges` returns false whenever the previous
state is nonempty and every file path in the current state has an equal
hash in the previous state — even if the previous state contains file
paths absent from the current state, so deleting a Go file from the cmd
directory, with no other change, never triggers regeneration; and
whenever the previous state is empty it returns true. -/
theorem detectChanges_spec :
    (∀ previous current : List (String × String), previous ≠ [] →
      (∀ pc ∈ current, lookupState previous pc.1 = some pc.2) →
      detectChanges previous current = false)
    ∧ (∀ current : List (String × String), detectChanges [] current = true) := by
  constructor
  · intro previous current hne hall
    rw [detectChanges, if_neg (by simpa [List.length_eq_zero] using hne)]
    rw [List.any_eq_false]
    intro pc hpc
    rw [hall pc hpc]
    simp
  · intro current
    rfl

/-- Closed instance of `detectChanges_spec`: deleting "b.go" from a
two-file previous state (with "a.go" unchanged) does not trigger
regeneration, while an empty previous state does. -/
theorem detectChanges_spec_witness :
    detectChanges [("a.go", "h1"), ("b.go", "h2")] [("a.go", "h1")] = false
    ∧ detectChanges [] [("a.go", "h1")] = true :=
  ⟨detectChanges_spec.1 [("a.go", "h1"), ("b.go", "h2")] [("a.go", "h1")]
      (by decide) (by decide),
   detectChanges_spec.2 [("a.go", "h1")]⟩
